import Mathlib

/-
Verification development for the vapor-chamber 1D analytical model
(src/Code/vaporchamer1dcalcs.py).

The Python script is a single pure arithmetic pipeline over hardcoded
constants.  We embed it shallowly over ℚ (exact rational arithmetic):

* `Config` holds every constant assigned in sections 1 and 2 of the source
  (model configuration / inputs and thermophysical properties), so that the
  pipeline can be stated for arbitrary configurations as the spec demands.
  The transcendental library values used by the source (`math.pi`, and the
  values `math.sin(math.radians(phi_deg))`, `math.cos(math.radians(theta_deg))`)
  are carried as rational fields `piVal`, `sinPhi`, `cosTheta`; in the shipped
  configuration phi_deg = theta_deg = 0, where IEEE doubles give
  sin = 0 and cos = 1 exactly, and `piVal` is the exact rational value of
  the IEEE-754 double `math.pi`.

* Each derived quantity of section 3-5 of the source is one definition
  `Config → ℚ`, line for line.  ℚ division totalizes x / 0 = 0, so these
  definitions are total.

* Python float division by zero raises ZeroDivisionError.  `run` evaluates
  the pipeline checking every division whose denominator is not a nonzero
  numeric literal, in the source's evaluation order, returning
  `Except DivSite Derived`: `Except.error s` models the Python exception
  raised at the assignment of variable `s`, and `Except.ok` packages all
  derived quantities (in which case ℚ division agrees with real/float
  division denominator-wise, so the totalized values are the right ones).
-/

namespace VaporChamber

/-- Configuration: every constant assigned in sections 1 ("MODEL CONFIGURATION
& INPUTS") and 2 ("THERMOPHYSICAL PROPERTIES") of the source, plus the three
math-library values described in the file header (`piVal`, `sinPhi`,
`cosTheta`).  `num_layers_evap`/`num_layers_cond` are integers in the source;
they are carried as ℚ since Python promotes them to float on first use. -/
structure Config where
  T_op : ℚ
  Q_in : ℚ
  phi_deg : ℚ
  filling_ratio : ℚ
  target_vacuum_Pa : ℚ
  experimental_correction_factor : ℚ
  vc_length : ℚ
  vc_width : ℚ
  t_evap_wall : ℚ
  t_cond_wall : ℚ
  t_vapor : ℚ
  evap_length : ℚ
  evap_width : ℚ
  k_shell : ℚ
  mesh_number_evap_wpi : ℚ
  d_w_evap : ℚ
  num_layers_evap : ℚ
  mesh_number_cond_wpi : ℚ
  d_w_cond : ℚ
  num_layers_cond : ℚ
  rho_l : ℚ
  rho_v : ℚ
  mu_l : ℚ
  mu_v : ℚ
  sigma : ℚ
  h_fg : ℚ
  k_l : ℚ
  theta_deg : ℚ
  piVal : ℚ
  sinPhi : ℚ
  cosTheta : ℚ
  deriving DecidableEq

/-- Source: `in_to_m = 0.0254`. -/
def in_to_m : ℚ := 0.0254

/-- Source: `mesh_number_evap = mesh_number_evap_wpi / in_to_m`. -/
def mesh_number_evap (c : Config) : ℚ := c.mesh_number_evap_wpi / in_to_m

/-- Source: `mesh_number_cond = mesh_number_cond_wpi / in_to_m`. -/
def mesh_number_cond (c : Config) : ℚ := c.mesh_number_cond_wpi / in_to_m

/-- Source: `t_evap_wick = 2 * d_w_evap * num_layers_evap`. -/
def t_evap_wick (c : Config) : ℚ := 2 * c.d_w_evap * c.num_layers_evap

/-- Source: `t_cond_wick = 2 * d_w_cond * num_layers_cond`. -/
def t_cond_wick (c : Config) : ℚ := 2 * c.d_w_cond * c.num_layers_cond

/-- Source: `epsilon_evap = 1 - (math.pi * mesh_number_evap * d_w_evap) / 4`. -/
def epsilon_evap (c : Config) : ℚ :=
  1 - (c.piVal * mesh_number_evap c * c.d_w_evap) / 4

/-- Source: `epsilon_cond = 1 - (math.pi * mesh_number_cond * d_w_cond) / 4`. -/
def epsilon_cond (c : Config) : ℚ :=
  1 - (c.piVal * mesh_number_cond c * c.d_w_cond) / 4

/-- Source: `rc_eff = 1 / (2 * mesh_number_evap)` — evaporator mesh only. -/
def rc_eff (c : Config) : ℚ := 1 / (2 * mesh_number_evap c)

/-- Source: `K_evap = (d_w_evap**2 * epsilon_evap**3) / (122 * (1 - epsilon_evap)**2)`. -/
def K_evap (c : Config) : ℚ :=
  (c.d_w_evap ^ 2 * epsilon_evap c ^ 3) / (122 * (1 - epsilon_evap c) ^ 2)

/-- Source: `K_cond = (d_w_cond**2 * epsilon_cond**3) / (122 * (1 - epsilon_cond)**2)`. -/
def K_cond (c : Config) : ℚ :=
  (c.d_w_cond ^ 2 * epsilon_cond c ^ 3) / (122 * (1 - epsilon_cond c) ^ 2)

/-- Source: `L_eff = (vc_length + evap_length) / 4`. -/
def L_eff (c : Config) : ℚ := (c.vc_length + c.evap_length) / 4

/-- Source: `internal_area = vc_length * vc_width`. -/
def internal_area (c : Config) : ℚ := c.vc_length * c.vc_width

/-- Source: `vol_vapor_space = internal_area * t_vapor`. -/
def vol_vapor_space (c : Config) : ℚ := internal_area c * c.t_vapor

/-- Source: `vol_evap_wick_pore = internal_area * t_evap_wick * epsilon_evap`. -/
def vol_evap_wick_pore (c : Config) : ℚ :=
  internal_area c * t_evap_wick c * epsilon_evap c

/-- Source: `vol_cond_wick_pore = internal_area * t_cond_wick * epsilon_cond`. -/
def vol_cond_wick_pore (c : Config) : ℚ :=
  internal_area c * t_cond_wick c * epsilon_cond c

/-- Source: `vol_internal_total = vol_vapor_space + vol_evap_wick_pore + vol_cond_wick_pore`. -/
def vol_internal_total (c : Config) : ℚ :=
  vol_vapor_space c + vol_evap_wick_pore c + vol_cond_wick_pore c

/-- Source: `liquid_charge_volume_mL = (vol_internal_total * filling_ratio) * 1e6`. -/
def liquid_charge_volume_mL (c : Config) : ℚ :=
  (vol_internal_total c * c.filling_ratio) * 1e6

/-- Source: `A_evap = evap_length * evap_width`. -/
def A_evap (c : Config) : ℚ := c.evap_length * c.evap_width

/-- Source: `A_cond = (vc_length * vc_width) - A_evap`. -/
def A_cond (c : Config) : ℚ := (c.vc_length * c.vc_width) - A_evap c

/-- Source: `A_wick_evap = t_evap_wick * vc_width`. -/
def A_wick_evap (c : Config) : ℚ := t_evap_wick c * c.vc_width

/-- Source: `A_wick_cond = t_cond_wick * vc_width`. -/
def A_wick_cond (c : Config) : ℚ := t_cond_wick c * c.vc_width

/-- Source: `A_vapor = t_vapor * vc_width`. -/
def A_vapor (c : Config) : ℚ := c.t_vapor * c.vc_width

/-- Source: `d_h_vapor = (2 * t_vapor * vc_width) / (t_vapor + vc_width)`. -/
def d_h_vapor (c : Config) : ℚ :=
  (2 * c.t_vapor * c.vc_width) / (c.t_vapor + c.vc_width)

/-- Source: `phi = math.radians(phi_deg)`, i.e. phi_deg · π / 180. -/
def phi (c : Config) : ℚ := c.phi_deg * c.piVal / 180

/-- Source: `theta = math.radians(theta_deg)`, i.e. theta_deg · π / 180. -/
def theta (c : Config) : ℚ := c.theta_deg * c.piVal / 180

/-- Source: `dP_cap = (2 * sigma * math.cos(theta)) / rc_eff` with `cosTheta`
standing for `math.cos(theta)`. -/
def dP_cap (c : Config) : ℚ := (2 * c.sigma * c.cosTheta) / rc_eff c

/-- Source: `dP_l_cond = (mu_l * Q_in * (L_eff / 2)) / (rho_l * A_wick_cond * K_cond * h_fg)`. -/
def dP_l_cond (c : Config) : ℚ :=
  (c.mu_l * c.Q_in * (L_eff c / 2)) / (c.rho_l * A_wick_cond c * K_cond c * c.h_fg)

/-- Source: `dP_l_evap = (mu_l * Q_in * (L_eff / 2)) / (rho_l * A_wick_evap * K_evap * h_fg)`. -/
def dP_l_evap (c : Config) : ℚ :=
  (c.mu_l * c.Q_in * (L_eff c / 2)) / (c.rho_l * A_wick_evap c * K_evap c * c.h_fg)

/-- Source: `dP_l = dP_l_cond + dP_l_evap`. -/
def dP_l (c : Config) : ℚ := dP_l_cond c + dP_l_evap c

/-- Source: `C_vapor = 96`. -/
def C_vapor : ℚ := 96

/-- Source: `dP_v = (C_vapor * mu_v * Q_in * L_eff) / (2 * rho_v * A_vapor * d_h_vapor**2 * h_fg)`. -/
def dP_v (c : Config) : ℚ :=
  (C_vapor * c.mu_v * c.Q_in * L_eff c) /
    (2 * c.rho_v * A_vapor c * d_h_vapor c ^ 2 * c.h_fg)

/-- Source: `g = 9.81`. -/
def g : ℚ := 9.81

/-- Source: `dP_g = rho_l * g * L_eff * math.sin(phi)` with `sinPhi` standing
for `math.sin(phi)`. -/
def dP_g (c : Config) : ℚ := c.rho_l * g * L_eff c * c.sinPhi

/-- Source: `dP_total = dP_l + dP_v + dP_g`. -/
def dP_total (c : Config) : ℚ := dP_l c + dP_v c + dP_g c

/-- Source: `vapor_pressure_term = (C_vapor * mu_v * L_eff) / (2 * rho_v * A_vapor * d_h_vapor**2 * h_fg)`. -/
def vapor_pressure_term (c : Config) : ℚ :=
  (C_vapor * c.mu_v * L_eff c) /
    (2 * c.rho_v * A_vapor c * d_h_vapor c ^ 2 * c.h_fg)

/-- Source: `liquid_pressure_term = ((mu_l * (L_eff / 2)) / (rho_l * A_wick_cond * K_cond * h_fg))
 + ((mu_l * (L_eff / 2)) / (rho_l * A_wick_evap * K_evap * h_fg))`. -/
def liquid_pressure_term (c : Config) : ℚ :=
  ((c.mu_l * (L_eff c / 2)) / (c.rho_l * A_wick_cond c * K_cond c * c.h_fg)) +
  ((c.mu_l * (L_eff c / 2)) / (c.rho_l * A_wick_evap c * K_evap c * c.h_fg))

/-- Source: `Q_max = (dP_cap - dP_g) / (liquid_pressure_term + vapor_pressure_term)`. -/
def Q_max (c : Config) : ℚ :=
  (dP_cap c - dP_g c) / (liquid_pressure_term c + vapor_pressure_term c)

/-- Source: `k_wick_evap = k_l * ((k_shell + k_l + (1 - epsilon_evap) * (k_shell - k_l)) /
 (k_shell + k_l - (1 - epsilon_evap) * (k_shell - k_l)))`. -/
def k_wick_evap (c : Config) : ℚ :=
  c.k_l * ((c.k_shell + c.k_l + (1 - epsilon_evap c) * (c.k_shell - c.k_l)) /
           (c.k_shell + c.k_l - (1 - epsilon_evap c) * (c.k_shell - c.k_l)))

/-- Source: `k_wick_cond = k_l * ((k_shell + k_l + (1 - epsilon_cond) * (k_shell - k_l)) /
 (k_shell + k_l - (1 - epsilon_cond) * (k_shell - k_l)))`. -/
def k_wick_cond (c : Config) : ℚ :=
  c.k_l * ((c.k_shell + c.k_l + (1 - epsilon_cond c) * (c.k_shell - c.k_l)) /
           (c.k_shell + c.k_l - (1 - epsilon_cond c) * (c.k_shell - c.k_l)))

/-- Source: `R_evap_wall = t_evap_wall / (k_shell * A_evap)`. -/
def R_evap_wall (c : Config) : ℚ := c.t_evap_wall / (c.k_shell * A_evap c)

/-- Source: `R_evap_wick = t_evap_wick / (k_wick_evap * A_evap)`. -/
def R_evap_wick (c : Config) : ℚ := t_evap_wick c / (k_wick_evap c * A_evap c)

/-- Source: `R_phase_change = 0.01`. -/
def R_phase_change : ℚ := 0.01

/-- Source: `R_cond_wick = t_cond_wick / (k_wick_cond * A_cond)`. -/
def R_cond_wick (c : Config) : ℚ := t_cond_wick c / (k_wick_cond c * A_cond c)

/-- Source: `R_cond_wall = t_cond_wall / (k_shell * A_cond)`. -/
def R_cond_wall (c : Config) : ℚ := c.t_cond_wall / (c.k_shell * A_cond c)

/-- Source: `R_total_ideal = R_evap_wall + R_evap_wick + R_phase_change + R_cond_wick + R_cond_wall`. -/
def R_total_ideal (c : Config) : ℚ :=
  R_evap_wall c + R_evap_wick c + R_phase_change + R_cond_wick c + R_cond_wall c

/-- Source: `R_total_corrected = R_total_ideal * experimental_correction_factor`. -/
def R_total_corrected (c : Config) : ℚ :=
  R_total_ideal c * c.experimental_correction_factor

/-- Source, verdict branch: `if dP_cap >= dP_total:` prints MET, else FAILED. -/
def capillary_limit_met (c : Config) : Bool := decide (dP_cap c ≥ dP_total c)

/-- Heat load named in the verdict branch of the report: the MET branch names
the specified heat load `Q_in`; the FAILED branch names `Q_max` as the limit
the design is restricted to. -/
def reported_load (c : Config) : ℚ :=
  if capillary_limit_met c then c.Q_in else Q_max c

/-- Source: `delta_T = Q_in * R_total_corrected`. -/
def delta_T (c : Config) : ℚ := c.Q_in * R_total_corrected c

/-- Division sites of the source whose denominator is not a nonzero numeric
literal, in the source's evaluation order.  Each names the variable whose
assignment performs that division; Python raises ZeroDivisionError at the
first such site whose (float) denominator is zero.  (Divisions by the literals
`in_to_m = 0.0254`, `4` and `180` can never raise and carry no site.) -/
inductive DivSite where
  | rc_eff
  | K_evap
  | K_cond
  | d_h_vapor
  | dP_cap
  | dP_l_cond
  | dP_l_evap
  | dP_v
  | vapor_pressure_term
  | liquid_pressure_term
  | Q_max
  | k_wick_evap
  | k_wick_cond
  | R_evap_wall
  | R_evap_wick
  | R_cond_wick
  | R_cond_wall
  deriving DecidableEq

/-- Whether a division site belongs to section 5 of the source, the thermal
resistance network stage. -/
def DivSite.inResistanceStage : DivSite → Bool
  | .k_wick_evap | .k_wick_cond | .R_evap_wall | .R_evap_wick
  | .R_cond_wick | .R_cond_wall => true
  | _ => false

/-- Whether a division site belongs to section 4 of the source, the capillary
performance (pressure) stage. -/
def DivSite.inPressureStage : DivSite → Bool
  | .dP_cap | .dP_l_cond | .dP_l_evap | .dP_v
  | .vapor_pressure_term | .liquid_pressure_term | .Q_max => true
  | _ => false

/-- Derived State: every quantity the pipeline computes (sections 3-5 of the
source), as reported or consumed by the results summary. -/
structure Derived where
  t_evap_wick : ℚ
  t_cond_wick : ℚ
  epsilon_evap : ℚ
  epsilon_cond : ℚ
  rc_eff : ℚ
  K_evap : ℚ
  K_cond : ℚ
  L_eff : ℚ
  internal_area : ℚ
  vol_internal_total : ℚ
  liquid_charge_volume_mL : ℚ
  A_evap : ℚ
  A_cond : ℚ
  A_wick_evap : ℚ
  A_wick_cond : ℚ
  A_vapor : ℚ
  d_h_vapor : ℚ
  dP_cap : ℚ
  dP_l : ℚ
  dP_v : ℚ
  dP_g : ℚ
  dP_total : ℚ
  Q_max : ℚ
  k_wick_evap : ℚ
  k_wick_cond : ℚ
  R_evap_wall : ℚ
  R_evap_wick : ℚ
  R_phase_change : ℚ
  R_cond_wick : ℚ
  R_cond_wall : ℚ
  R_total_ideal : ℚ
  R_total_corrected : ℚ
  capillary_limit_met : Bool
  reported_load : ℚ
  delta_T : ℚ
  deriving DecidableEq

/-- Run of the whole pipeline on a configuration.  Mirrors the source's
evaluation order: each `if` models the Python float division at the named
`DivSite` (see there), raising (`Except.error`) exactly when that denominator
is zero, which is when Python raises ZeroDivisionError; otherwise all derived
quantities are as the totalized ℚ definitions above give them.  The checks at
`dP_cap`, `vapor_pressure_term` and `liquid_pressure_term` repeat denominators
of earlier sites and can only fire in the order shown. -/
def run (c : Config) : Except DivSite Derived :=
  if 2 * mesh_number_evap c = 0 then .error .rc_eff
  else if 122 * (1 - epsilon_evap c) ^ 2 = 0 then .error .K_evap
  else if 122 * (1 - epsilon_cond c) ^ 2 = 0 then .error .K_cond
  else if c.t_vapor + c.vc_width = 0 then .error .d_h_vapor
  else if rc_eff c = 0 then .error .dP_cap
  else if c.rho_l * A_wick_cond c * K_cond c * c.h_fg = 0 then .error .dP_l_cond
  else if c.rho_l * A_wick_evap c * K_evap c * c.h_fg = 0 then .error .dP_l_evap
  else if 2 * c.rho_v * A_vapor c * d_h_vapor c ^ 2 * c.h_fg = 0 then .error .dP_v
  else if liquid_pressure_term c + vapor_pressure_term c = 0 then .error .Q_max
  else if c.k_shell + c.k_l - (1 - epsilon_evap c) * (c.k_shell - c.k_l) = 0 then
    .error .k_wick_evap
  else if c.k_shell + c.k_l - (1 - epsilon_cond c) * (c.k_shell - c.k_l) = 0 then
    .error .k_wick_cond
  else if c.k_shell * A_evap c = 0 then .error .R_evap_wall
  else if k_wick_evap c * A_evap c = 0 then .error .R_evap_wick
  else if k_wick_cond c * A_cond c = 0 then .error .R_cond_wick
  else if c.k_shell * A_cond c = 0 then .error .R_cond_wall
  else .ok
    { t_evap_wick := t_evap_wick c
      t_cond_wick := t_cond_wick c
      epsilon_evap := epsilon_evap c
      epsilon_cond := epsilon_cond c
      rc_eff := rc_eff c
      K_evap := K_evap c
      K_cond := K_cond c
      L_eff := L_eff c
      internal_area := internal_area c
      vol_internal_total := vol_internal_total c
      liquid_charge_volume_mL := liquid_charge_volume_mL c
      A_evap := A_evap c
      A_cond := A_cond c
      A_wick_evap := A_wick_evap c
      A_wick_cond := A_wick_cond c
      A_vapor := A_vapor c
      d_h_vapor := d_h_vapor c
      dP_cap := dP_cap c
      dP_l := dP_l c
      dP_v := dP_v c
      dP_g := dP_g c
      dP_total := dP_total c
      Q_max := Q_max c
      k_wick_evap := k_wick_evap c
      k_wick_cond := k_wick_cond c
      R_evap_wall := R_evap_wall c
      R_evap_wick := R_evap_wick c
      R_phase_change := R_phase_change
      R_cond_wick := R_cond_wick c
      R_cond_wall := R_cond_wall c
      R_total_ideal := R_total_ideal c
      R_total_corrected := R_total_corrected c
      capillary_limit_met := capillary_limit_met c
      reported_load := reported_load c
      delta_T := delta_T c }

/-- The shipped configuration: the constants of sections 1 and 2 of the source,
as exact rationals.  `piVal` is the exact value of the IEEE-754 double
`math.pi` (884279719003555 · 2⁻⁴⁸); since `phi_deg = theta_deg = 0`,
`math.radians` gives 0.0 and `math.sin(0.0) = 0.0`, `math.cos(0.0) = 1.0`
exactly, so `sinPhi = 0` and `cosTheta = 1` are exact. -/
def defaultConfig : Config where
  T_op := 70 + 273.15
  Q_in := 150
  phi_deg := 0
  filling_ratio := 0.30
  target_vacuum_Pa := 10
  experimental_correction_factor := 1.2
  vc_length := 0.070
  vc_width := 0.070
  t_evap_wall := 0.00225
  t_cond_wall := 0.00225
  t_vapor := 0.00192
  evap_length := 0.020
  evap_width := 0.020
  k_shell := 380
  mesh_number_evap_wpi := 200
  d_w_evap := 0.000051
  num_layers_evap := 5
  mesh_number_cond_wpi := 80
  d_w_cond := 0.00015
  num_layers_cond := 5
  rho_l := 977.8
  rho_v := 0.198
  mu_l := 4.04e-4
  mu_v := 1.09e-5
  sigma := 0.0644
  h_fg := 2.33e6
  k_l := 0.668
  theta_deg := 0
  piVal := 884279719003555 / 281474976710656
  sinPhi := 0
  cosTheta := 1

/-- A configuration whose evaporator wire diameter has been raised to 1 mm,
making the evaporator porosity negative (π · mesh_number · d_w / 4 > 1):
an unphysical wick specification. -/
def badPorosityConfig : Config := { defaultConfig with d_w_evap := 0.001 }

/-- The shipped configuration with the evaporator layer count set to 0. -/
def zeroEvapLayersConfig : Config := { defaultConfig with num_layers_evap := 0 }

/-- The shipped configuration with the condenser layer count set to 0. -/
def zeroCondLayersConfig : Config := { defaultConfig with num_layers_cond := 0 }

/-- The liquid pressure drop factors as its per-watt coefficient times the
heat load: `dP_l = liquid_pressure_term · Q_in` (an identity of the two
source formulas, valid for every configuration since ℚ totalizes x / 0 = 0
on both sides alike). -/
theorem dP_l_linear (c : Config) : dP_l c = liquid_pressure_term c * c.Q_in := by
  simp only [dP_l, dP_l_cond, dP_l_evap, liquid_pressure_term, div_eq_mul_inv]
  ring

/-- The vapor pressure drop factors as its per-watt coefficient times the
heat load: `dP_v = vapor_pressure_term · Q_in`. -/
theorem dP_v_linear (c : Config) : dP_v c = vapor_pressure_term c * c.Q_in := by
  simp only [dP_v, vapor_pressure_term, div_eq_mul_inv]
  ring

/-- C1: dP_l and dP_v are linear in Q_in (with the per-watt coefficients of
the Q_max computation), strictly increasing in Q_in when the coefficients are
positive; dP_cap and dP_g do not depend on Q_in; and evaluating the pipeline
at Q_in = Q_max yields dP_total = dP_cap exactly, so the MET/FAILED verdict
boundary is q ≤ Q_max: the threshold is self-consistent with the
independently computed Q_max. -/
theorem c1_Qin_linearity_and_Qmax_boundary (c : Config) (q q₁ q₂ : ℚ)
    (h12 : q₁ < q₂)
    (hL : 0 < liquid_pressure_term c) (hV : 0 < vapor_pressure_term c) :
    dP_l c = liquid_pressure_term c * c.Q_in ∧
    dP_v c = vapor_pressure_term c * c.Q_in ∧
    dP_l { c with Q_in := q₁ } < dP_l { c with Q_in := q₂ } ∧
    dP_v { c with Q_in := q₁ } < dP_v { c with Q_in := q₂ } ∧
    dP_cap { c with Q_in := q } = dP_cap c ∧
    dP_g { c with Q_in := q } = dP_g c ∧
    dP_total { c with Q_in := Q_max c } = dP_cap c ∧
    (capillary_limit_met { c with Q_in := q } = true ↔ q ≤ Q_max c) := by
  have hsum : 0 < liquid_pressure_term c + vapor_pressure_term c := add_pos hL hV
  have htot : ∀ x : ℚ, dP_total { c with Q_in := x } =
      (liquid_pressure_term c + vapor_pressure_term c) * x + dP_g c := by
    intro x
    have e1 : dP_l { c with Q_in := x } = liquid_pressure_term c * x := dP_l_linear _
    have e2 : dP_v { c with Q_in := x } = vapor_pressure_term c * x := dP_v_linear _
    calc dP_total { c with Q_in := x }
        = dP_l { c with Q_in := x } + dP_v { c with Q_in := x } + dP_g c := rfl
      _ = (liquid_pressure_term c + vapor_pressure_term c) * x + dP_g c := by
          rw [e1, e2]; ring
  refine ⟨dP_l_linear c, dP_v_linear c, ?_, ?_, rfl, rfl, ?_, ?_⟩
  · rw [show dP_l { c with Q_in := q₁ } = liquid_pressure_term c * q₁ from dP_l_linear _,
      show dP_l { c with Q_in := q₂ } = liquid_pressure_term c * q₂ from dP_l_linear _]
    exact mul_lt_mul_of_pos_left h12 hL
  · rw [show dP_v { c with Q_in := q₁ } = vapor_pressure_term c * q₁ from dP_v_linear _,
      show dP_v { c with Q_in := q₂ } = vapor_pressure_term c * q₂ from dP_v_linear _]
    exact mul_lt_mul_of_pos_left h12 hV
  · rw [htot (Q_max c), Q_max, mul_div_cancel₀ _ (ne_of_gt hsum)]
    ring
  · have hcap : dP_cap { c with Q_in := q } = dP_cap c := rfl
    have hmet : capillary_limit_met { c with Q_in := q } = true ↔
        dP_total { c with Q_in := q } ≤ dP_cap c := by
      rw [← hcap]
      simp [capillary_limit_met, ge_iff_le]
    rw [hmet, htot q, Q_max, le_div_iff₀ hsum]
    constructor
    · intro h; linarith
    · intro h; linarith

/-- C2: the verdict branch of the report: MET exactly when dP_cap ≥ dP_total
(so a tie counts as MET), otherwise FAILED, in which case the verdict line
names Q_max as the achievable limit in place of the requested Q_in. -/
theorem c2_verdict_boundary (c : Config) :
    (capillary_limit_met c = true ↔ dP_cap c ≥ dP_total c) ∧
    (dP_cap c = dP_total c → capillary_limit_met c = true) ∧
    (capillary_limit_met c = false → reported_load c = Q_max c) ∧
    (capillary_limit_met c = true → reported_load c = c.Q_in) := by
  refine ⟨by simp [capillary_limit_met], ?_, ?_, ?_⟩
  · intro h
    simp [capillary_limit_met, ge_iff_le, h.ge]
  · intro h
    simp [reported_load, h]
  · intro h
    simp [reported_load, h]

/-- C4: R_total_ideal is the literal sum of the five named series resistances
(with the phase-change constant 0.01 K/W), and R_total_corrected is exactly
R_total_ideal times the experimental correction factor. -/
theorem c4_resistance_network (c : Config) :
    R_total_ideal c =
      R_evap_wall c + R_evap_wick c + R_phase_change + R_cond_wick c + R_cond_wall c ∧
    R_phase_change = 0.01 ∧
    R_total_corrected c = R_total_ideal c * c.experimental_correction_factor :=
  ⟨rfl, rfl, rfl⟩

/-- C5: dP_total is exactly the sum of the liquid, vapor and gravitational
pressure drops, with no additional terms. -/
theorem c5_dP_total_sum (c : Config) :
    dP_total c = dP_l c + dP_v c + dP_g c := rfl

/-- C6: the effective capillary pore radius is 1 / (2 · mesh_number_evap),
computed from the evaporator mesh only; dP_cap = 2·σ·cos θ / rc_eff uses that
radius; neither rc_eff nor dP_cap changes when the condenser mesh
specification (mesh density, wire diameter, layer count) is changed. -/
theorem c6_pore_radius_evaporator_only (c : Config) (m d n : ℚ) :
    rc_eff c = 1 / (2 * mesh_number_evap c) ∧
    dP_cap c = (2 * c.sigma * c.cosTheta) / rc_eff c ∧
    rc_eff { c with mesh_number_cond_wpi := m, d_w_cond := d, num_layers_cond := n }
      = rc_eff c ∧
    dP_cap { c with mesh_number_cond_wpi := m, d_w_cond := d, num_layers_cond := n }
      = dP_cap c :=
  ⟨rfl, rfl, rfl, rfl⟩

/-- C7: dP_g = ρ_l · g · L_eff · sin φ with g = 9.81; when the orientation is
horizontal (phi_deg = 0, whence sin φ = 0 since an IEEE double gives
math.sin(0.0) = 0.0 exactly) the gravitational drop is exactly 0; and for any
value s of sin φ — negative values included — dP_g enters dP_total additively
as ρ_l · g · L_eff · s, never sign-inverted. -/
theorem c7_gravity_term (c : Config) (s : ℚ)
    (_hphi : c.phi_deg = 0) (hsin : c.sinPhi = 0) :
    dP_g c = c.rho_l * g * L_eff c * c.sinPhi ∧
    g = 9.81 ∧
    dP_g c = 0 ∧
    dP_g { c with sinPhi := s } = c.rho_l * g * L_eff c * s ∧
    dP_total { c with sinPhi := s } =
      dP_l { c with sinPhi := s } + dP_v { c with sinPhi := s }
        + c.rho_l * g * L_eff c * s := by
  refine ⟨rfl, rfl, ?_, rfl, rfl⟩
  simp [dP_g, hsin]

/-- C7 witness: the conclusion at the shipped configuration (phi_deg = 0),
with sin φ replaced by the concrete value -1/2. -/
theorem c7_gravity_term_witness :
    dP_g defaultConfig =
      defaultConfig.rho_l * g * L_eff defaultConfig * defaultConfig.sinPhi ∧
    g = 9.81 ∧
    dP_g defaultConfig = 0 ∧
    dP_g { defaultConfig with sinPhi := -1/2 } =
      defaultConfig.rho_l * g * L_eff defaultConfig * (-1/2) ∧
    dP_total { defaultConfig with sinPhi := -1/2 } =
      dP_l { defaultConfig with sinPhi := -1/2 }
        + dP_v { defaultConfig with sinPhi := -1/2 }
        + defaultConfig.rho_l * g * L_eff defaultConfig * (-1/2) :=
  c7_gravity_term defaultConfig (-1/2) rfl rfl

/-- C9: the evaluator is deterministic: it is a function of the configuration
alone (equal configurations give identical results), and two successful runs
on the same configuration produce identical Derived records. -/
theorem c9_deterministic_evaluator :
    (∀ c₁ c₂ : Config, c₁ = c₂ → run c₁ = run c₂) ∧
    (∀ (c : Config) (d₁ d₂ : Derived),
      run c = Except.ok d₁ → run c = Except.ok d₂ → d₁ = d₂) := by
  constructor
  · intro c₁ c₂ h
    rw [h]
  · intro c d₁ d₂ h₁ h₂
    rw [h₁] at h₂
    injection h₂

/-- C9 witness: the determinism theorem applied at the shipped
configuration. -/
theorem c9_deterministic_evaluator_witness :
    run defaultConfig = run defaultConfig :=
  c9_deterministic_evaluator.1 defaultConfig defaultConfig rfl

/-- C1 witness: the linearity/threshold theorem at the shipped configuration,
with heat loads 7 (for Q_in-independence), 1 < 2 (for strict monotonicity),
and both per-watt coefficients evaluated positive. -/
theorem c1_Qin_linearity_and_Qmax_boundary_witness :
    (1 : ℚ) < 2 ∧
    0 < liquid_pressure_term defaultConfig ∧
    0 < vapor_pressure_term defaultConfig ∧
    (dP_l defaultConfig = liquid_pressure_term defaultConfig * defaultConfig.Q_in ∧
     dP_v defaultConfig = vapor_pressure_term defaultConfig * defaultConfig.Q_in ∧
     dP_l { defaultConfig with Q_in := 1 } < dP_l { defaultConfig with Q_in := 2 } ∧
     dP_v { defaultConfig with Q_in := 1 } < dP_v { defaultConfig with Q_in := 2 } ∧
     dP_cap { defaultConfig with Q_in := 7 } = dP_cap defaultConfig ∧
     dP_g { defaultConfig with Q_in := 7 } = dP_g defaultConfig ∧
     dP_total { defaultConfig with Q_in := Q_max defaultConfig } = dP_cap defaultConfig ∧
     (capillary_limit_met { defaultConfig with Q_in := 7 } = true ↔
       (7 : ℚ) ≤ Q_max defaultConfig)) :=
  ⟨by norm_num,
   by norm_num [liquid_pressure_term, L_eff, A_wick_cond, A_wick_evap, K_cond, K_evap,
     epsilon_cond, epsilon_evap, mesh_number_cond, mesh_number_evap, t_cond_wick,
     t_evap_wick, in_to_m, defaultConfig],
   by norm_num [vapor_pressure_term, C_vapor, L_eff, A_vapor, d_h_vapor, in_to_m,
     defaultConfig],
   c1_Qin_linearity_and_Qmax_boundary defaultConfig 7 1 2 (by norm_num)
     (by norm_num [liquid_pressure_term, L_eff, A_wick_cond, A_wick_evap, K_cond, K_evap,
       epsilon_cond, epsilon_evap, mesh_number_cond, mesh_number_evap, t_cond_wick,
       t_evap_wick, in_to_m, defaultConfig])
     (by norm_num [vapor_pressure_term, C_vapor, L_eff, A_vapor, d_h_vapor, in_to_m,
       defaultConfig])⟩

/-- C2 witness: the verdict theorem at the shipped configuration, where the
capillary limit is MET and the report therefore names the requested Q_in. -/
theorem c2_verdict_boundary_witness :
    capillary_limit_met defaultConfig = true ∧
    reported_load defaultConfig = defaultConfig.Q_in :=
  have hmet : capillary_limit_met defaultConfig = true := by
    norm_num [capillary_limit_met, dP_cap, dP_total, dP_l, dP_l_cond, dP_l_evap, dP_v,
      dP_g, C_vapor, g, L_eff, A_wick_cond, A_wick_evap, A_vapor, d_h_vapor, K_cond,
      K_evap, epsilon_cond, epsilon_evap, mesh_number_cond, mesh_number_evap, t_cond_wick,
      t_evap_wick, rc_eff, in_to_m, defaultConfig]
  ⟨hmet, (c2_verdict_boundary defaultConfig).2.2.2 hmet⟩

/-- C3 counterexample: `badPorosityConfig` has evaporator porosity < 0, yet
the program raises no error: the whole pipeline (every pressure and
resistance formula) evaluates and returns a result. -/
theorem c3_counterexample_no_error_on_bad_porosity :
    epsilon_evap badPorosityConfig < 0 ∧
    ∃ d, run badPorosityConfig = Except.ok d := by
  constructor
  · norm_num [epsilon_evap, mesh_number_evap, in_to_m, badPorosityConfig, defaultConfig]
  · norm_num [run, mesh_number_evap, mesh_number_cond, t_evap_wick, t_cond_wick,
      epsilon_evap, epsilon_cond, rc_eff, K_evap, K_cond, L_eff, internal_area,
      vol_vapor_space, vol_evap_wick_pore, vol_cond_wick_pore, vol_internal_total,
      liquid_charge_volume_mL, A_evap, A_cond, A_wick_evap, A_wick_cond, A_vapor,
      d_h_vapor, dP_cap, dP_l_cond, dP_l_evap, dP_l, C_vapor, dP_v, g, dP_g, dP_total,
      vapor_pressure_term, liquid_pressure_term, Q_max, k_wick_evap, k_wick_cond,
      R_evap_wall, R_evap_wick, R_phase_change, R_cond_wick, R_cond_wall, R_total_ideal,
      R_total_corrected, capillary_limit_met, reported_load, delta_T, in_to_m,
      badPorosityConfig, defaultConfig]

/-- C3 amended: the program performs no porosity validation at all.  Whenever
no division hits a zero denominator, the run completes normally and the
porosity — whatever its value, inside or outside (0,1) — simply propagates
into the Derived State. -/
theorem c3_no_porosity_validation (c : Config)
    (h : 2 * mesh_number_evap c ≠ 0 ∧
      122 * (1 - epsilon_evap c) ^ 2 ≠ 0 ∧
      122 * (1 - epsilon_cond c) ^ 2 ≠ 0 ∧
      c.t_vapor + c.vc_width ≠ 0 ∧
      rc_eff c ≠ 0 ∧
      c.rho_l * A_wick_cond c * K_cond c * c.h_fg ≠ 0 ∧
      c.rho_l * A_wick_evap c * K_evap c * c.h_fg ≠ 0 ∧
      2 * c.rho_v * A_vapor c * d_h_vapor c ^ 2 * c.h_fg ≠ 0 ∧
      liquid_pressure_term c + vapor_pressure_term c ≠ 0 ∧
      c.k_shell + c.k_l - (1 - epsilon_evap c) * (c.k_shell - c.k_l) ≠ 0 ∧
      c.k_shell + c.k_l - (1 - epsilon_cond c) * (c.k_shell - c.k_l) ≠ 0 ∧
      c.k_shell * A_evap c ≠ 0 ∧
      k_wick_evap c * A_evap c ≠ 0 ∧
      k_wick_cond c * A_cond c ≠ 0 ∧
      c.k_shell * A_cond c ≠ 0) :
    ∃ d, run c = Except.ok d ∧ d.epsilon_evap = epsilon_evap c ∧
      d.epsilon_cond = epsilon_cond c := by
  obtain ⟨h1, h2, h3, h4, h5, h6, h7, h8, h9, h10, h11, h12, h13, h14, h15⟩ := h
  unfold run
  rw [if_neg h1, if_neg h2, if_neg h3, if_neg h4, if_neg h5, if_neg h6, if_neg h7,
    if_neg h8, if_neg h9, if_neg h10, if_neg h11, if_neg h12, if_neg h13, if_neg h14,
    if_neg h15]
  exact ⟨_, rfl, rfl, rfl⟩

/-- C3 witness: the no-validation theorem applied at the configuration with
negative evaporator porosity; all fifteen denominators are nonzero there, so
the run completes and carries the unphysical porosity through. -/
theorem c3_no_porosity_validation_witness :
    epsilon_evap badPorosityConfig < 0 ∧
    ∃ d, run badPorosityConfig = Except.ok d ∧
      d.epsilon_evap = epsilon_evap badPorosityConfig ∧
      d.epsilon_cond = epsilon_cond badPorosityConfig :=
  ⟨by norm_num [epsilon_evap, mesh_number_evap, in_to_m, badPorosityConfig, defaultConfig],
   c3_no_porosity_validation badPorosityConfig (by
     norm_num [mesh_number_evap, mesh_number_cond, t_evap_wick, t_cond_wick, epsilon_evap,
       epsilon_cond, rc_eff, K_evap, K_cond, L_eff, A_evap, A_cond, A_wick_evap,
       A_wick_cond, A_vapor, d_h_vapor, C_vapor, vapor_pressure_term,
       liquid_pressure_term, k_wick_evap, k_wick_cond, in_to_m, badPorosityConfig,
       defaultConfig])⟩

/-- C8 counterexample: with the evaporator layer count set to 0 the program
does not reject the configuration and does not reach the resistance stage: it
raises a division-by-zero error at the dP_l_evap assignment, which lies in
the capillary pressure stage, not the resistance stage. -/
theorem c8_counterexample_error_site_not_resistance_stage :
    run zeroEvapLayersConfig = Except.error DivSite.dP_l_evap ∧
    DivSite.inResistanceStage DivSite.dP_l_evap = false ∧
    DivSite.inPressureStage DivSite.dP_l_evap = true := by
  refine ⟨?_, rfl, rfl⟩
  norm_num [run, mesh_number_evap, mesh_number_cond, t_evap_wick, t_cond_wick,
    epsilon_evap, epsilon_cond, rc_eff, K_evap, K_cond, L_eff, A_evap, A_cond,
    A_wick_evap, A_wick_cond, A_vapor, d_h_vapor, C_vapor, vapor_pressure_term,
    liquid_pressure_term, k_wick_evap, k_wick_cond, in_to_m, zeroEvapLayersConfig,
    defaultConfig]

/-- C8 amended: a zero layer count on either wick makes the corresponding
wick cross-section zero and the program raises an unhandled division-by-zero
error at the liquid pressure-drop assignment of that side (dP_l_evap
resp. dP_l_cond, both in the capillary pressure stage, before any resistance
formula); evaluation aborts there, so no Infinity reaches the report. -/
theorem c8_zero_layers_raise_at_liquid_pressure_drop :
    run zeroEvapLayersConfig = Except.error DivSite.dP_l_evap ∧
    run zeroCondLayersConfig = Except.error DivSite.dP_l_cond ∧
    DivSite.inPressureStage DivSite.dP_l_evap = true ∧
    DivSite.inPressureStage DivSite.dP_l_cond = true ∧
    DivSite.inResistanceStage DivSite.dP_l_evap = false ∧
    DivSite.inResistanceStage DivSite.dP_l_cond = false := by
  refine ⟨?_, ?_, rfl, rfl, rfl, rfl⟩
  · norm_num [run, mesh_number_evap, mesh_number_cond, t_evap_wick, t_cond_wick,
      epsilon_evap, epsilon_cond, rc_eff, K_evap, K_cond, L_eff, A_evap, A_cond,
      A_wick_evap, A_wick_cond, A_vapor, d_h_vapor, C_vapor, vapor_pressure_term,
      liquid_pressure_term, k_wick_evap, k_wick_cond, in_to_m, zeroEvapLayersConfig,
      defaultConfig]
  · norm_num [run, mesh_number_evap, mesh_number_cond, t_evap_wick, t_cond_wick,
      epsilon_evap, epsilon_cond, rc_eff, K_evap, K_cond, L_eff, A_evap, A_cond,
      A_wick_evap, A_wick_cond, A_vapor, d_h_vapor, C_vapor, vapor_pressure_term,
      liquid_pressure_term, k_wick_evap, k_wick_cond, in_to_m, zeroCondLayersConfig,
      defaultConfig]

/-- C10: under the shipped configuration both porosities lie strictly in
(0,1) and every denominator of the pipeline — the (1−ε)² permeability
denominators, the wick and vapor cross-sections, h_fg, the effective wick
conductivity denominators, and the per-watt coefficient sum of Q_max — is
strictly positive, so the run completes without any division by zero and
every derived quantity is a well-defined rational. -/
theorem c10_default_config_no_division_by_zero :
    (0 < epsilon_evap defaultConfig ∧ epsilon_evap defaultConfig < 1) ∧
    (0 < epsilon_cond defaultConfig ∧ epsilon_cond defaultConfig < 1) ∧
    0 < (1 - epsilon_evap defaultConfig) ^ 2 ∧
    0 < (1 - epsilon_cond defaultConfig) ^ 2 ∧
    0 < A_wick_evap defaultConfig ∧
    0 < A_wick_cond defaultConfig ∧
    0 < A_vapor defaultConfig ∧
    0 < A_evap defaultConfig ∧
    0 < A_cond defaultConfig ∧
    0 < defaultConfig.h_fg ∧
    0 < defaultConfig.k_shell + defaultConfig.k_l -
      (1 - epsilon_evap defaultConfig) * (defaultConfig.k_shell - defaultConfig.k_l) ∧
    0 < defaultConfig.k_shell + defaultConfig.k_l -
      (1 - epsilon_cond defaultConfig) * (defaultConfig.k_shell - defaultConfig.k_l) ∧
    0 < liquid_pressure_term defaultConfig + vapor_pressure_term defaultConfig ∧
    ∃ d, run defaultConfig = Except.ok d := by
  norm_num [run, mesh_number_evap, mesh_number_cond, t_evap_wick, t_cond_wick,
    epsilon_evap, epsilon_cond, rc_eff, K_evap, K_cond, L_eff, internal_area,
    vol_vapor_space, vol_evap_wick_pore, vol_cond_wick_pore, vol_internal_total,
    liquid_charge_volume_mL, A_evap, A_cond, A_wick_evap, A_wick_cond, A_vapor,
    d_h_vapor, dP_cap, dP_l_cond, dP_l_evap, dP_l, C_vapor, dP_v, g, dP_g, dP_total,
    vapor_pressure_term, liquid_pressure_term, Q_max, k_wick_evap, k_wick_cond,
    R_evap_wall, R_evap_wick, R_phase_change, R_cond_wick, R_cond_wall, R_total_ideal,
    R_total_corrected, capillary_limit_met, reported_load, delta_T, in_to_m,
    defaultConfig]

end VaporChamber
